import Mathlib

/-!
Verification development for the pumpfun bot's data-ingestion-and-decision
core (src/pumpfun_bot_improved.py): configuration resolution with
environment substitution, the persistence schema for coins and tweets, the
resilient HTTP fetch helper, sentiment scoring, and the threshold decision
function.  Machine floats of the original are embedded as rationals, UTC
timestamps as naturals, and side effects (logging, the database session,
the process environment) as explicit values threaded through the
functions.
-/

namespace PumpfunBot

/-! ### Data model (src lines 48-64)

`MigratedCoin` (table `migrated_coins`): id, coin_symbol (non-null,
indexed), market_cap, volume, sentiment_score (nullable floats),
migration_date (DateTime, defaulted at creation).  `Tweet` (table
`tweets`): id, coin_id (nullable, foreign key to migrated_coins.id),
content (non-null), sentiment, created_at (non-null).

`sentiment_score` is nullable in the schema, but `decide_trade` and the
status views read it as a numeric value (a NULL score would make the
Python comparison raise), so it is embedded as a required rational. -/

structure MigratedCoin where
  id : Nat
  coin_symbol : String
  market_cap : Option ℚ
  volume : Option ℚ
  sentiment_score : ℚ
  migration_date : Nat
deriving DecidableEq

structure Tweet where
  id : Nat
  coin_id : Option Nat
  content : String
  sentiment : Option ℚ
  created_at : Nat
deriving DecidableEq

/-- The database session state: the rows of the two tables, in insertion
order (`setup_database` creates both tables; autoincrement ids are carried
on the records themselves). -/
structure Store where
  migrated_coins : List MigratedCoin
  tweets : List Tweet
deriving DecidableEq

/-! ### Configuration (src lines 94-96, 147)

`decide_trade` reads `config['trading']['risk_limit']` and
`config['trading']['sentiment_threshold']`; main reads
`config['telegram']['bot_token']`. -/

structure TradingConfig where
  risk_limit : ℚ
  sentiment_threshold : ℚ
deriving DecidableEq

structure TelegramConfig where
  bot_token : String
deriving DecidableEq

structure Config where
  trading : TradingConfig
  telegram : TelegramConfig
deriving DecidableEq

/-! ### Decision engine (src lines 94-103) -/

/-- The three classifications `decide_trade` can log. -/
inductive TradeAction
  | BUY
  | SELL
  | HOLD
deriving DecidableEq

/-- Embedding of `decide_trade(coin, config, session)` (src lines 94-103).
It reads `risk_limit` (bound but unused by the source) and
`sentiment_threshold` from the config, then branches:
`if coin.sentiment_score >= sentiment_threshold` log BUY,
`elif coin.sentiment_score <= -sentiment_threshold` log SELL,
`else` log HOLD.  The body only calls `logging.info`; the returned
`TradeAction` is exactly the decision of the single log line produced, and
the session state is returned so the frame is explicit. -/
def decide_trade (coin : MigratedCoin) (config : Config) (session : Store) :
    TradeAction × Store :=
  let sentiment_threshold := config.trading.sentiment_threshold
  if coin.sentiment_score ≥ sentiment_threshold then
    (TradeAction.BUY, session)
  else if coin.sentiment_score ≤ -sentiment_threshold then
    (TradeAction.SELL, session)
  else
    (TradeAction.HOLD, session)

/-- Claim C1: `decide_trade` checks BUY first, then SELL: it returns BUY
when `sentiment_score >= sentiment_threshold`, otherwise SELL when
`sentiment_score <= -sentiment_threshold`, otherwise HOLD; in particular a
score equal to the threshold gives BUY, a score equal to minus a positive
threshold gives SELL, and with threshold 0 and score 0 the BUY branch wins
the tie. -/
theorem decide_trade_classifies (coin : MigratedCoin) (config : Config)
    (session : Store) :
    (config.trading.sentiment_threshold ≤ coin.sentiment_score →
      (decide_trade coin config session).1 = TradeAction.BUY)
    ∧ (coin.sentiment_score < config.trading.sentiment_threshold →
        coin.sentiment_score ≤ -config.trading.sentiment_threshold →
      (decide_trade coin config session).1 = TradeAction.SELL)
    ∧ (-config.trading.sentiment_threshold < coin.sentiment_score →
        coin.sentiment_score < config.trading.sentiment_threshold →
      (decide_trade coin config session).1 = TradeAction.HOLD)
    ∧ (coin.sentiment_score = config.trading.sentiment_threshold →
      (decide_trade coin config session).1 = TradeAction.BUY)
    ∧ (coin.sentiment_score = -config.trading.sentiment_threshold →
        0 < config.trading.sentiment_threshold →
      (decide_trade coin config session).1 = TradeAction.SELL)
    ∧ (config.trading.sentiment_threshold = 0 → coin.sentiment_score = 0 →
      (decide_trade coin config session).1 = TradeAction.BUY) := by
  unfold decide_trade
  refine ⟨?_, ?_, ?_, ?_, ?_, ?_⟩ <;> intro h₁
  · simp [h₁]
  · intro h₂; rw [if_neg (by linarith), if_pos h₂]
  · intro h₂; rw [if_neg (by linarith), if_neg (by linarith)]
  · simp [le_of_eq h₁.symm]
  · intro h₂; rw [if_neg (by simp [h₁]; linarith), if_pos (le_of_eq h₁)]
  · intro h₂; simp [h₁, h₂]

/-- Witness for C1 at concrete inputs: score 3/10 against threshold 3/10
is BUY (tie), score -3/10 against threshold 3/10 is SELL, score 1/10
against threshold 3/10 is HOLD, and score 0 against threshold 0 is BUY. -/
theorem decide_trade_classifies_witness :
    (decide_trade ⟨1, "PUMP", none, none, 3/10, 0⟩
      ⟨⟨1/100, 3/10⟩, ⟨"t"⟩⟩ ⟨[], []⟩).1 = TradeAction.BUY
    ∧ (decide_trade ⟨1, "PUMP", none, none, -(3/10), 0⟩
      ⟨⟨1/100, 3/10⟩, ⟨"t"⟩⟩ ⟨[], []⟩).1 = TradeAction.SELL
    ∧ (decide_trade ⟨1, "PUMP", none, none, 1/10, 0⟩
      ⟨⟨1/100, 3/10⟩, ⟨"t"⟩⟩ ⟨[], []⟩).1 = TradeAction.HOLD
    ∧ (decide_trade ⟨1, "PUMP", none, none, 0, 0⟩
      ⟨⟨1/100, 0⟩, ⟨"t"⟩⟩ ⟨[], []⟩).1 = TradeAction.BUY := by
  refine ⟨?_, ?_, ?_, ?_⟩
  · exact (decide_trade_classifies ⟨1, "PUMP", none, none, 3/10, 0⟩
      ⟨⟨1/100, 3/10⟩, ⟨"t"⟩⟩ ⟨[], []⟩).2.2.2.1 (by norm_num)
  · exact (decide_trade_classifies ⟨1, "PUMP", none, none, -(3/10), 0⟩
      ⟨⟨1/100, 3/10⟩, ⟨"t"⟩⟩ ⟨[], []⟩).2.2.2.2.1 (by norm_num) (by norm_num)
  · exact (decide_trade_classifies ⟨1, "PUMP", none, none, 1/10, 0⟩
      ⟨⟨1/100, 3/10⟩, ⟨"t"⟩⟩ ⟨[], []⟩).2.2.1 (by norm_num) (by norm_num)
  · exact (decide_trade_classifies ⟨1, "PUMP", none, none, 0, 0⟩
      ⟨⟨1/100, 0⟩, ⟨"t"⟩⟩ ⟨[], []⟩).2.2.2.2.2 rfl rfl

/-- Claim C6: `decide_trade` only logs its decision and leaves all other
state unchanged: the session (database) state it was given is returned
untouched, so it executes no trade, places no order, and mutates no
balance or database record; the coin and the configuration are consumed
as immutable values. -/
theorem decide_trade_frame (coin : MigratedCoin) (config : Config)
    (session : Store) :
    (decide_trade coin config session).2 = session := by
  unfold decide_trade
  dsimp only
  split
  · rfl
  · split <;> rfl

/-! ### Persistent store operations (src lines 58-70, 135-139)

`Tweet.coin_id` carries `ForeignKey('migrated_coins.id')` (src line 61),
but `setup_database` (src lines 66-70) builds the engine on the default
connection string `sqlite:///pumpfun_migrated_coins.db` and issues no
`foreign_keys` pragma and registers no connection event listener, and
SQLite leaves declared FOREIGN KEY constraints unenforced by default:
the running program therefore commits a tweet whose `coin_id` names no
existing `migrated_coins.id` silently, in contradiction with its own
declared referential constraint. -/

/-- The spec's store-error taxonomy (§7): insertion of a social post
record against a nonexistent coin id must be rejected with
ReferenceError, not silently dropped. -/
inductive StoreError
  | ReferenceError
deriving DecidableEq

/-- `session.add(coin); session.commit()`: a coin row is appended, no
constraint on it beyond the non-null symbol already enforced by the
record type. -/
def insert_coin (s : Store) (c : MigratedCoin) : Store :=
  { s with migrated_coins := s.migrated_coins ++ [c] }

/-- `session.add(tweet); session.commit()` as the program actually runs
it: src declares the foreign key on `tweets.coin_id` but never enables
foreign-key enforcement on its sqlite engine (no pragma, no event
listener in src lines 66-70), so the commit appends the row regardless
of whether `coin_id` matches an existing coin — a dangling reference is
inserted silently. -/
def insert_tweet (s : Store) (t : Tweet) : Store :=
  { s with tweets := s.tweets ++ [t] }

/-- Modelled from the spec: the insertion the schema declaration and the
spec (§4.2, §7) demand — under an enforced
`tweets.coin_id REFERENCES migrated_coins.id`, the commit appends the
row when `coin_id` is NULL or matches an existing coin id, and is
rejected with ReferenceError otherwise.  Stated beside `insert_tweet`
(the source's actual behavior) to exhibit their divergence. -/
def insert_tweet_fk (s : Store) (t : Tweet) : Except StoreError Store :=
  match t.coin_id with
  | none => Except.ok { s with tweets := s.tweets ++ [t] }
  | some cid =>
    if s.migrated_coins.any (fun c => c.id == cid) then
      Except.ok { s with tweets := s.tweets ++ [t] }
    else
      Except.error StoreError.ReferenceError

/-- Descending insertion by `migration_date` (newest first), embedding
one step of `ORDER BY migration_date DESC`. -/
def insertDesc (c : MigratedCoin) : List MigratedCoin → List MigratedCoin
  | [] => [c]
  | x :: xs =>
    if x.migration_date ≥ c.migration_date then x :: insertDesc c xs
    else c :: x :: xs

/-- `ORDER BY MigratedCoin.migration_date DESC` over the table rows. -/
def sortByDateDesc : List MigratedCoin → List MigratedCoin
  | [] => []
  | x :: xs => insertDesc x (sortByDateDesc xs)

/-- `session.query(MigratedCoin).order_by(MigratedCoin.migration_date
.desc()).limit(5).all()` (src lines 112 and 138). -/
def query_recent (s : Store) : List MigratedCoin :=
  (sortByDateDesc s.migrated_coins).take 5

/-- The `/status` route body (src lines 136-139): the most recent five
coins rendered as (symbol, sentiment) pairs, newest first. -/
def get_status (s : Store) : List (String × ℚ) :=
  (query_recent s).map (fun c => (c.coin_symbol, c.sentiment_score))

/-- Claim C3 (code bug): at the failing input — a store holding one coin
with id 1, and a tweet whose `coin_id` is 2 — the program's insert
commits the dangling row, so the tweets table changes, while the
foreign-key discipline the schema declares and the spec demands rejects
that same insertion with ReferenceError and leaves the table empty. -/
theorem insert_tweet_dangling_committed :
    (insert_tweet ⟨[⟨1, "PUMP", none, none, 0, 10⟩], []⟩
        ⟨1, some 2, "to the moon", some (1/2), 11⟩).tweets
      = [⟨1, some 2, "to the moon", some (1/2), 11⟩]
    ∧ insert_tweet_fk ⟨[⟨1, "PUMP", none, none, 0, 10⟩], []⟩
        ⟨1, some 2, "to the moon", some (1/2), 11⟩
      = Except.error StoreError.ReferenceError :=
  ⟨rfl, rfl⟩

/-- Inserting an element strictly newer than the head of a
descending-sorted list puts it in front without looking further. -/
theorem insertDesc_head_of_newer (c : MigratedCoin)
    (l : List MigratedCoin) (x : MigratedCoin)
    (hx : x.migration_date < c.migration_date) :
    insertDesc c (x :: l) = c :: x :: l := by
  unfold insertDesc
  rw [if_neg (by omega)]

/-- Appending a record strictly newer than every element and sorting
descending yields that record first. -/
theorem sortByDateDesc_append_newest (l : List MigratedCoin)
    (c : MigratedCoin)
    (h : ∀ x ∈ l, x.migration_date < c.migration_date) :
    ∃ rest, sortByDateDesc (l ++ [c]) = c :: rest := by
  induction l with
  | nil => exact ⟨[], rfl⟩
  | cons x xs ih =>
    obtain ⟨rest, hrest⟩ := ih (fun y hy => h y (List.mem_cons_of_mem x hy))
    have hx : x.migration_date < c.migration_date := h x (List.mem_cons_self x xs)
    refine ⟨insertDesc x rest, ?_⟩
    show insertDesc x (sortByDateDesc (xs ++ [c])) = _
    rw [hrest]
    unfold insertDesc
    rw [if_pos (by omega)]
    cases rest <;> rfl

/-- Claim C8: after inserting a coin whose `migration_date` is strictly
newer than that of every coin already stored, the query for the five most
recent coins ordered by migration timestamp descending returns that
record first (and the `/status` view shows its symbol and sentiment
first). -/
theorem query_recent_newest_first (s : Store) (c : MigratedCoin)
    (h : ∀ x ∈ s.migrated_coins, x.migration_date < c.migration_date) :
    (query_recent (insert_coin s c)).head? = some c
    ∧ (get_status (insert_coin s c)).head?
      = some (c.coin_symbol, c.sentiment_score) := by
  obtain ⟨rest, hrest⟩ := sortByDateDesc_append_newest s.migrated_coins c h
  have hq : query_recent (insert_coin s c) = c :: rest.take 4 := by
    unfold query_recent insert_coin
    dsimp only
    rw [hrest]
    rfl
  constructor
  · rw [hq]; rfl
  · unfold get_status
    rw [hq]
    rfl

/-- Witness for C8: inserting a coin dated 30 into a store whose coins
are dated 10 and 20 makes it the first record of the recent-five query
and of the `/status` view. -/
theorem query_recent_newest_first_witness :
    (query_recent (insert_coin
        ⟨[⟨1, "OLD", none, none, 0, 10⟩, ⟨2, "MID", none, none, 1/2, 20⟩], []⟩
        ⟨3, "NEW", none, none, 1, 30⟩)).head?
      = some ⟨3, "NEW", none, none, 1, 30⟩
    ∧ (get_status (insert_coin
        ⟨[⟨1, "OLD", none, none, 0, 10⟩, ⟨2, "MID", none, none, 1/2, 20⟩], []⟩
        ⟨3, "NEW", none, none, 1, 30⟩)).head? = some ("NEW", 1) :=
  query_recent_newest_first
    ⟨[⟨1, "OLD", none, none, 0, 10⟩, ⟨2, "MID", none, none, 1/2, 20⟩], []⟩
    ⟨3, "NEW", none, none, 1, 30⟩
    (by intro x hx; simp at hx; rcases hx with h | h <;> simp [h])

/-! ### Config resolver (src lines 22-33)

`load_config` calls `load_dotenv()`, reads the file, substitutes
`re.sub(r'\$\x7b(\w+)\x7d', lambda m: os.getenv(m.group(1), ''), text)`,
parses with `yaml.safe_load`, logs success and returns the mapping; on
any exception it logs the failure and re-raises.  File reading, the .env
file and the yaml parser are ambient effects of the original, passed here
as explicit inputs. -/

/-- A regex word character (`\w`), over the ASCII range the config files
use: letters, digits and underscore. -/
def isWordChar (c : Char) : Bool :=
  c.isAlphanum || c == '_'

/-- The greedy `\w+` scan: splits a character list into its longest
word-character run and the remainder. -/
def takeWord : List Char → List Char × List Char
  | [] => ([], [])
  | c :: cs =>
    if isWordChar c then (c :: (takeWord cs).1, (takeWord cs).2)
    else ([], c :: cs)

theorem takeWord_snd_length (l : List Char) :
    (takeWord l).2.length ≤ l.length := by
  induction l with
  | nil => simp [takeWord]
  | cons c cs ih =>
    by_cases hc : isWordChar c
    · simp only [takeWord, if_pos hc, List.length_cons]
      omega
    · simp [takeWord, if_neg hc]

/-- One left-to-right pass of `re.sub` with the placeholder pattern: at a
`$` followed by `{`, a nonempty word-character run and `}`, the whole
placeholder is replaced by `os.getenv(name, '')`, i.e. the environment
value of the name or the empty string when unset, and scanning resumes
after the `}`; every other character is copied through. -/
def substEnvAux (env : String → Option String) : List Char → List Char
  | [] => []
  | '$' :: '{' :: cs =>
    match h : takeWord cs with
    | (c :: w, '}' :: rest) =>
      (Option.getD (env (String.mk (c :: w))) "").data ++ substEnvAux env rest
    | _ => '$' :: '{' :: substEnvAux env cs
  | c :: cs => c :: substEnvAux env cs
termination_by l => l.length
decreasing_by
  · have hlen := takeWord_snd_length cs
    rw [h] at hlen
    simp only [List.length_cons] at hlen ⊢
    omega
  · simp only [List.length_cons]
    omega
  · simp only [List.length_cons]
    omega

/-- The string-level substitution step of `load_config`:
`config_content = re.sub(..., config_content)` (src line 27). -/
def substitute_env (env : String → Option String) (content : String) : String :=
  String.mk (substEnvAux env content.data)

/-- When the scanner sits on a well-formed placeholder, `takeWord` returns
exactly the name and leaves the closing brace. -/
theorem takeWord_name (name t : List Char)
    (hw : name.all isWordChar = true) :
    takeWord (name ++ '}' :: t) = (name, '}' :: t) := by
  induction name with
  | nil =>
    show takeWord ('}' :: t) = ([], '}' :: t)
    simp [takeWord, isWordChar]
  | cons c cs ih =>
    simp only [List.all_cons, Bool.and_eq_true] at hw
    show takeWord (c :: (cs ++ '}' :: t)) = (c :: cs, '}' :: t)
    simp [takeWord, hw.1, ih hw.2]

/-- The spec's error taxonomy for `load_config` (§7 ConfigError): the
exception logged and re-raised when the file cannot be read, or when the
substituted text cannot be parsed. -/
inductive ConfigError
  | fileError
  | parseError
deriving DecidableEq

/-- The log lines `load_config` can write. -/
inductive LogMsg
  | configLoaded
  | configLoadFailed
deriving DecidableEq

/-- python-dotenv `load_dotenv()` (src line 23): each binding of the
optional local .env file is written into the process environment only
when the name is not already present (the library default,
override=False); existing variables are never overwritten and none are
removed. -/
def load_dotenv (dotenv : List (String × String))
    (env : String → Option String) : String → Option String :=
  fun n =>
    match env n with
    | some v => some v
    | none => (dotenv.find? (fun p => p.1 == n)).map Prod.snd

/-- Embedding of `load_config(config_path)` (src lines 22-33): run
`load_dotenv`, read the file (`readFile` is the outcome of
`open(config_path).read()`, none when it raises), substitute environment
placeholders in the raw text, parse (`parse` embeds `yaml.safe_load`,
none when it raises), log `Configuration loaded successfully` and return
the config; on failure log `Failed to load configuration` and re-raise.
Returns the result, the process environment after the call, and the log
lines written. -/
def load_config (dotenv : List (String × String))
    (osEnv : String → Option String)
    (readFile : Option String)
    (parse : String → Option Config) :
    Except ConfigError Config × (String → Option String) × List LogMsg :=
  let env := load_dotenv dotenv osEnv
  match readFile with
  | none => (Except.error ConfigError.fileError, env, [LogMsg.configLoadFailed])
  | some content =>
    match parse (substitute_env env content) with
    | none => (Except.error ConfigError.parseError, env, [LogMsg.configLoadFailed])
    | some cfg => (Except.ok cfg, env, [LogMsg.configLoaded])

/-- Claim C4: the substitution pass of `load_config` replaces every
`$\x7bNAME\x7d` occurrence in the raw text with the environment value for
NAME — scanning reaches each occurrence and rewrites it to
`os.getenv(NAME, '')`, continuing with the rest of the text — the empty
string is substituted when NAME is unset (so an unset variable is not an
error, the placeholder just becomes empty text), and every character not
part of a placeholder is copied through unchanged. -/
theorem load_config_substitutes (env : String → Option String)
    (name t : List Char) (hne : name ≠ [])
    (hw : name.all isWordChar = true) :
    substEnvAux env ('$' :: '{' :: (name ++ '}' :: t))
      = (Option.getD (env (String.mk name)) "").data ++ substEnvAux env t
    ∧ (env (String.mk name) = none →
        substEnvAux env ('$' :: '{' :: (name ++ '}' :: t))
          = substEnvAux env t)
    ∧ ∀ c cs, c ≠ '$' → substEnvAux env (c :: cs) = c :: substEnvAux env cs := by
  have hrepl : substEnvAux env ('$' :: '{' :: (name ++ '}' :: t))
      = (Option.getD (env (String.mk name)) "").data ++ substEnvAux env t := by
    obtain ⟨c, w, rfl⟩ := List.exists_cons_of_ne_nil hne
    rw [substEnvAux]
    rw [takeWord_name (c :: w) t hw]
    rfl
  refine ⟨hrepl, ?_, ?_⟩
  · intro hunset
    rw [hrepl, hunset]
    rfl
  · intro c cs hc
    rw [substEnvAux]
    intro cs2 heq _
    exact hc heq

/-- Witness for C4: substituting in the placeholder text
`$\x7bMISSING_VAR\x7d` under an environment where every variable is unset
yields the empty continuation — the placeholder becomes empty text. -/
theorem load_config_substitutes_witness :
    substEnvAux (fun _ => none) ('$' :: '{' :: ("MISSING_VAR".data ++ '}' :: []))
      = substEnvAux (fun _ => none) [] :=
  (load_config_substitutes (fun _ => none) "MISSING_VAR".data []
    (by decide) (by decide)).2.1 rfl

/-- Claim C5: whenever the configuration file cannot be read or the
substituted text cannot be parsed, `load_config` fails with a
ConfigError, the failure is logged (the log of the call is exactly the
failure line), and no default configuration is returned — the result is
never `ok`. -/
theorem load_config_failure (dotenv : List (String × String))
    (osEnv : String → Option String) (readFile : Option String)
    (parse : String → Option Config)
    (hfail : readFile = none
      ∨ ∃ content, readFile = some content
          ∧ parse (substitute_env (load_dotenv dotenv osEnv) content) = none) :
    (∃ e, (load_config dotenv osEnv readFile parse).1 = Except.error e)
    ∧ (load_config dotenv osEnv readFile parse).2.2 = [LogMsg.configLoadFailed]
    ∧ ∀ cfg, (load_config dotenv osEnv readFile parse).1 ≠ Except.ok cfg := by
  rcases hfail with hnone | ⟨content, hsome, hparse⟩
  · subst hnone
    exact ⟨⟨ConfigError.fileError, rfl⟩, rfl, fun cfg h => by simp [load_config] at h⟩
  · subst hsome
    refine ⟨⟨ConfigError.parseError, ?_⟩, ?_, ?_⟩
    · simp [load_config, hparse]
    · simp [load_config, hparse]
    · intro cfg h
      simp [load_config, hparse] at h

/-- Witness for C5: with an unreadable file (the read raises) the call
errors, logs the failure, and returns no configuration. -/
theorem load_config_failure_witness :
    (∃ e, (load_config [] (fun _ => none) none (fun _ => none)).1
      = Except.error e)
    ∧ (load_config [] (fun _ => none) none (fun _ => none)).2.2
      = [LogMsg.configLoadFailed]
    ∧ ∀ cfg, (load_config [] (fun _ => none) none (fun _ => none)).1
      ≠ Except.ok cfg :=
  load_config_failure [] (fun _ => none) none (fun _ => none) (Or.inl rfl)

/-- Counterexample to C7 as stated: `load_config` begins with
`load_dotenv()`, which writes .env bindings into the process environment.
Starting from an environment where FOO is unset, with a local .env file
binding FOO=bar, the environment after the call maps FOO to "bar" — a
variable was added, so the call does not leave the process environment
unchanged. -/
theorem load_config_env_cex :
    ((fun _ => (none : Option String)) "FOO" = none)
    ∧ (load_config [("FOO", "bar")] (fun _ => none) none
        (fun _ => none)).2.1 ("FOO") = some ("bar") :=
  ⟨rfl, rfl⟩

/-- The environment returned by `load_config` is exactly the one produced
by its initial `load_dotenv()` call, on every path. -/
theorem load_config_env_eq (dotenv : List (String × String))
    (osEnv : String → Option String) (readFile : Option String)
    (parse : String → Option Config) :
    (load_config dotenv osEnv readFile parse).2.1
      = load_dotenv dotenv osEnv := by
  unfold load_config
  cases readFile with
  | none => rfl
  | some content =>
    dsimp only
    cases parse (substitute_env (load_dotenv dotenv osEnv) content) <;> rfl

/-- Claim C7 amended: a call to `load_config` never removes or
overwrites an existing environment variable; the only change it can make
to the process environment is that `load_dotenv()` adds, for a name
unset at the start of the call, that name's binding from the local .env
file; in particular with no .env bindings the environment is unchanged. -/
theorem load_config_env_effect (dotenv : List (String × String))
    (osEnv : String → Option String) (readFile : Option String)
    (parse : String → Option Config) (n : String) :
    (∀ v, osEnv n = some v →
      (load_config dotenv osEnv readFile parse).2.1 n = some v)
    ∧ (osEnv n = none →
      (load_config dotenv osEnv readFile parse).2.1 n
        = (dotenv.find? (fun p => p.1 == n)).map Prod.snd)
    ∧ (dotenv = [] →
      (load_config dotenv osEnv readFile parse).2.1 n = osEnv n) := by
  rw [load_config_env_eq]
  refine ⟨?_, ?_, ?_⟩
  · intro v hv
    simp [load_dotenv, hv]
  · intro hn
    simp [load_dotenv, hn]
  · intro hd
    subst hd
    unfold load_dotenv
    cases h : osEnv n <;> simp [h]

/-- Witness for C7 amended: with .env binding FOO=bar, a set variable
PATH=/bin keeps its value, the unset FOO receives the .env binding, and
with no .env file an unset name stays unset. -/
theorem load_config_env_effect_witness :
    (load_config [("FOO", "bar")]
        (fun m => if m == "PATH" then some ("/bin") else none) none
        (fun _ => none)).2.1 ("PATH") = some ("/bin")
    ∧ (load_config [("FOO", "bar")]
        (fun m => if m == "PATH" then some ("/bin") else none) none
        (fun _ => none)).2.1 ("FOO")
      = ([("FOO", "bar")].find? (fun p => p.1 == "FOO")).map Prod.snd
    ∧ (load_config [] (fun _ => none) none (fun _ => none)).2.1 ("FOO")
      = none :=
  ⟨(load_config_env_effect [("FOO", "bar")]
      (fun m => if m == "PATH" then some ("/bin") else none) none
      (fun _ => none) ("PATH")).1 ("/bin") rfl,
   (load_config_env_effect [("FOO", "bar")]
      (fun m => if m == "PATH" then some ("/bin") else none) none
      (fun _ => none) ("FOO")).2.1 rfl,
   (load_config_env_effect [] (fun _ => none) none
      (fun _ => none) ("FOO")).2.2 rfl⟩

/-! ### Resilient fetcher (src lines 74-84)

`make_request` builds a `requests.Session()`, constructs
`Retry(total=5, backoff_factor=0.2, status_forcelist=[500, 502, 503,
504])` and mounts it with `session.mount('https://',
HTTPAdapter(max_retries=retries))`; it then issues the GET, calls
`raise_for_status()`, returns `response.json()`, and maps every
`requests.exceptions.RequestException` to a logged error and `None`. -/

structure HttpResponse where
  status : Nat
  body : String
deriving DecidableEq

structure RetryPolicy where
  total : Nat
  backoff_factor : ℚ
  status_forcelist : List Nat
deriving DecidableEq

/-- `Retry(total=5, backoff_factor=0.2, status_forcelist=[500, 502, 503,
504])` (src line 76). -/
def mountedRetries : RetryPolicy :=
  { total := 5, backoff_factor := 1/5, status_forcelist := [500, 502, 503, 504] }

/-- The adapter a fresh `requests.Session()` already carries for both
schemes: no retries of any kind (max_retries=0). -/
def defaultAdapter : RetryPolicy :=
  { total := 0, backoff_factor := 0, status_forcelist := [] }

inductive Scheme
  | http
  | https
deriving DecidableEq

structure Url where
  scheme : Scheme
  rest : String
deriving DecidableEq

/-- `session.mount('https://', HTTPAdapter(max_retries=retries))` (src
line 77): the retry-capable adapter serves only URLs under the https
prefix; an http URL is served by the session's default adapter. -/
def adapter_for : Scheme → RetryPolicy
  | Scheme.https => mountedRetries
  | Scheme.http => defaultAdapter

/-- What one `session.get` call did on the wire: how many HTTP requests
were issued, the backoff delays slept between them, and either the
response handed back or `none` when the adapter raised its exhaustion
error (MaxRetryError, surfaced by requests as a RequestException). -/
structure FetchTrace where
  requests : Nat
  delays : List ℚ
  outcome : Option HttpResponse
deriving DecidableEq

/-- Modelled from the spec: the retry loop of the mounted adapter lives
in the requests/urllib3 libraries, not in this repository.  Per the spec
(§4.3) a response whose status is in the forcelist is retried while
retry budget remains, sleeping before each retry an exponential backoff
delay — the base factor doubled per attempt, 0.2s, 0.4s, 0.8s, 1.6s,
3.2s for the mounted policy — and the exhaustion error is raised once
the budget is spent; any other status is returned to the caller.
`server` gives the response to the i-th HTTP request (0-based), and
`nextDelay` carries the backoff delay of the upcoming retry, doubled
after each use. -/
def runAdapter (policy : RetryPolicy) (server : Nat → HttpResponse) :
    Nat → Nat → ℚ → List ℚ → FetchTrace
  | retriesLeft, idx, nextDelay, delays =>
    if (server idx).status ∈ policy.status_forcelist then
      match retriesLeft with
      | 0 => ⟨idx + 1, delays, none⟩
      | r + 1 =>
        runAdapter policy server r (idx + 1) (nextDelay * 2)
          (delays ++ [nextDelay])
    else ⟨idx + 1, delays, some (server idx)⟩

/-- One `session.get(url, ...)` through the adapter mounted for the
URL's scheme, starting with the full retry budget of that adapter and
the base backoff factor as the first delay. -/
def session_get (url : Url) (server : Nat → HttpResponse) : FetchTrace :=
  runAdapter (adapter_for url.scheme) server (adapter_for url.scheme).total 0
    (adapter_for url.scheme).backoff_factor []

/-- Embedding of `make_request(url, headers, params)` (src lines 74-84),
generic in the decoded JSON type: `decode` embeds `response.json()`
(none when the body fails to decode, raising the JSONDecodeError the
handler also catches).  The except-clause maps every RequestException —
the adapter's exhaustion error as well as the HTTPError raised by
`raise_for_status()` on a 4xx/5xx response — to a logged error and a
`None` result, so no exception reaches the caller.  Returns the value
delivered to the caller together with the trace of HTTP activity. -/
def make_request {α : Type} (url : Url) (server : Nat → HttpResponse)
    (decode : String → Option α) : Option α × FetchTrace :=
  let tr := session_get url server
  match tr.outcome with
  | none => (none, tr)
  | some resp =>
    if 400 ≤ resp.status ∧ resp.status < 600 then (none, tr)
    else (decode resp.body, tr)

/-- A status outside the adapter's forcelist is never retried: the
response of the first request is handed back at once. -/
theorem runAdapter_not_forced (policy : RetryPolicy)
    (server : Nat → HttpResponse) (r idx : Nat) (nextDelay : ℚ) (delays : List ℚ)
    (h : (server idx).status ∉ policy.status_forcelist) :
    runAdapter policy server r idx nextDelay delays
      = ⟨idx + 1, delays, some (server idx)⟩ := by
  rw [runAdapter.eq_def]
  dsimp only
  rw [if_neg h]

/-- Claim C2: `make_request` never raises to its caller: against an
https URL that always answers 503 it issues 6 HTTP requests in all —
the initial attempt plus exactly 5 retries, with exponential backoff
delays 0.2s, 0.4s, 0.8s, 1.6s, 3.2s — and then returns None (the
adapter's exhaustion error is caught and logged); and for any other
HTTP error status, one not in the retry forcelist, the error raised by
`raise_for_status()` is caught and logged and None is returned from the
single attempt. -/
theorem make_request_503_exhausts {α : Type} (rest body : String)
    (decode : String → Option α) :
    (make_request ⟨Scheme.https, rest⟩ (fun _ => ⟨503, body⟩) decode).1 = none
    ∧ (make_request ⟨Scheme.https, rest⟩ (fun _ => ⟨503, body⟩) decode).2.requests = 6
    ∧ (make_request ⟨Scheme.https, rest⟩ (fun _ => ⟨503, body⟩) decode).2.delays
      = [1/5, 2/5, 4/5, 8/5, 16/5]
    ∧ (make_request ⟨Scheme.https, rest⟩ (fun _ => ⟨503, body⟩) decode).2.outcome
      = none
    ∧ ∀ s : Nat, 400 ≤ s → s < 600 → s ∉ mountedRetries.status_forcelist →
        (make_request ⟨Scheme.https, rest⟩ (fun _ => ⟨s, body⟩) decode).1 = none
        ∧ (make_request ⟨Scheme.https, rest⟩ (fun _ => ⟨s, body⟩) decode).2.requests
          = 1 := by
  refine ⟨rfl, rfl, ?_, rfl, ?_⟩
  · have hd : (make_request ⟨Scheme.https, rest⟩ (fun _ => ⟨503, body⟩) decode).2.delays
        = [1/5, 1/5*2, 1/5*2*2, 1/5*2*2*2, 1/5*2*2*2*2] := rfl
    rw [hd]
    norm_num
  intro s h4 h6 hnf
  have htr : session_get ⟨Scheme.https, rest⟩ (fun _ => ⟨s, body⟩)
      = ⟨1, [], some ⟨s, body⟩⟩ :=
    runAdapter_not_forced mountedRetries (fun _ => ⟨s, body⟩) 5 0 (1/5) [] hnf
  constructor
  · show (make_request ⟨Scheme.https, rest⟩ (fun _ => ⟨s, body⟩) decode).1 = none
    unfold make_request
    rw [htr]
    simp [h4, h6]
  · show (make_request ⟨Scheme.https, rest⟩ (fun _ => ⟨s, body⟩) decode).2.requests = 1
    unfold make_request
    rw [htr]
    simp [h4, h6]

/-- Witness for C2 at a concrete non-retryable status: an https URL
always answering 404 yields None from a single request. -/
theorem make_request_503_exhausts_witness :
    (make_request (α := String) ⟨Scheme.https, "api.example/coins"⟩
      (fun _ => ⟨404, "not found"⟩) (fun b => some b)).1 = none
    ∧ (make_request (α := String) ⟨Scheme.https, "api.example/coins"⟩
      (fun _ => ⟨404, "not found"⟩) (fun b => some b)).2.requests = 1 :=
  (make_request_503_exhausts ("api.example/coins") ("not found")
    (fun b => some b)).2.2.2.2 404 (by norm_num) (by norm_num) (by decide)

/-- Claim C10: the retry-capable adapter is mounted only for the
https:// scheme, so a GET on an http:// URL answered with a retryable
status (500, 502, 503 or 504) is attempted exactly once — no retries, no
backoff sleeps — before the HTTPError is logged and None returned. -/
theorem make_request_http_single_attempt {α : Type} (rest body : String)
    (decode : String → Option α) (s : Nat)
    (hs : s ∈ mountedRetries.status_forcelist) :
    (make_request ⟨Scheme.http, rest⟩ (fun _ => ⟨s, body⟩) decode).1 = none
    ∧ (make_request ⟨Scheme.http, rest⟩ (fun _ => ⟨s, body⟩) decode).2.requests = 1
    ∧ (make_request ⟨Scheme.http, rest⟩ (fun _ => ⟨s, body⟩) decode).2.delays
      = [] := by
  have hbounds : 400 ≤ s ∧ s < 600 := by
    simp [mountedRetries] at hs
    rcases hs with h | h | h | h <;> omega
  have htr : session_get ⟨Scheme.http, rest⟩ (fun _ => ⟨s, body⟩)
      = ⟨1, [], some ⟨s, body⟩⟩ :=
    runAdapter_not_forced defaultAdapter (fun _ => ⟨s, body⟩) 0 0 0 []
      (List.not_mem_nil s)
  refine ⟨?_, ?_, ?_⟩ <;>
    · unfold make_request
      rw [htr]
      simp [hbounds.1, hbounds.2]

/-- Witness for C10: an http URL always answering 503 gets a single
request, no delays, and a None result. -/
theorem make_request_http_single_attempt_witness :
    (make_request (α := String) ⟨Scheme.http, "api.example/coins"⟩
      (fun _ => ⟨503, "unavailable"⟩) (fun b => some b)).1 = none
    ∧ (make_request (α := String) ⟨Scheme.http, "api.example/coins"⟩
      (fun _ => ⟨503, "unavailable"⟩) (fun b => some b)).2.requests = 1
    ∧ (make_request (α := String) ⟨Scheme.http, "api.example/coins"⟩
      (fun _ => ⟨503, "unavailable"⟩) (fun b => some b)).2.delays = [] :=
  make_request_http_single_attempt ("api.example/coins") ("unavailable")
    (fun b => some b) 503 (by decide)

/-! ### Sentiment scorer (src lines 88-90) -/

/-- The clamp of VADER's score normalization: the compound value is
forced into [-1, 1]. -/
def clampUnit (x : ℚ) : ℚ :=
  if x < -1 then -1 else if 1 < x then 1 else x

/-- Modelled from the spec: the module-wide VADER analyzer behind
`analyze_sentiment(text)` (src lines 88-90) is an external lexicon-based
capability the spec keeps out of scope, fixing only its contract —
`polarity_scores(text)['compound']` is a pure function of the text whose
normalization clamps the compound score into [-1, 1].  `raw` stands for
the lexicon aggregation over the text, `clampUnit` for the clamp of the
normalization step. -/
def analyze_sentiment (raw : String → ℚ) (text : String) : ℚ :=
  clampUnit (raw text)

/-- Claim C9: `analyze_sentiment` is deterministic — the same text
always yields the same score — and its result lies in [-1, 1]. -/
theorem analyze_sentiment_det_bounded (raw : String → ℚ) (text : String) :
    (-1 ≤ analyze_sentiment raw text ∧ analyze_sentiment raw text ≤ 1)
    ∧ ∀ t2, t2 = text → analyze_sentiment raw t2 = analyze_sentiment raw text := by
  constructor
  · unfold analyze_sentiment clampUnit
    by_cases h1 : raw text < -1
    · rw [if_pos h1]
      norm_num
    · rw [if_neg h1]
      by_cases h2 : 1 < raw text
      · rw [if_pos h2]
        norm_num
      · rw [if_neg h2]
        constructor <;> [exact le_of_not_lt h1; exact le_of_not_lt h2]
  · intro t2 h
    rw [h]

/-- Witness for C9: a raw lexicon score of 7 on concrete text is clamped
into the interval, and rescoring the same text gives the same value. -/
theorem analyze_sentiment_det_bounded_witness :
    (-1 ≤ analyze_sentiment (fun _ => 7) "pump it"
      ∧ analyze_sentiment (fun _ => 7) "pump it" ≤ 1)
    ∧ analyze_sentiment (fun _ => 7) "pump it"
      = analyze_sentiment (fun _ => 7) "pump it" :=
  ⟨(analyze_sentiment_det_bounded (fun _ => 7) "pump it").1,
   (analyze_sentiment_det_bounded (fun _ => 7) "pump it").2 ("pump it") rfl⟩

end PumpfunBot
